import Mathlib

/-!
Verification of the entity-resolution and mutation-orchestration layer of
the reaction-admin product-editing screen, embedded shallowly from the two
JavaScript source files (the useProduct hook together with the
VariantInventoryForm component, and the useVariantInventory hook).

JavaScript values that may be `undefined` are modelled as `Option`;
`none` is `undefined`.  The JavaScript `a || b` on strings picks `a`
exactly when `a` is truthy, that is a non-empty string; on booleans it
picks `a` exactly when `a` is `true`.
-/

/-- Truthiness of a JS value that is either a string or undefined:
`undefined` and the empty string are falsy. -/
def jsTruthyS (v : Option String) : Bool :=
  match v with
  | some s => s ≠ ""
  | none => false

/-- JS `a || b` for string-or-undefined values. -/
def jsOrS (a b : Option String) : Option String :=
  if jsTruthyS a then a else b

/-- JS `a || b` where `a` is a boolean-or-undefined value and `b` a boolean:
the result is `a` when `a` is truthy (that is, `true`), else `b`. -/
def jsOrB (a : Option Bool) (b : Bool) : Bool :=
  match a with
  | some true => true
  | _ => b

/-- Route parameters supplied by react-router, as read by both hooks:
`handle` (the product id), `variantId`, `optionId`, `shopId`. -/
structure RouteParams where
  handle : Option String
  variantId : Option String
  optionId : Option String
  shopId : Option String
  deriving DecidableEq

/-- Explicit arguments given to the hook, plus the ambient current shop id. -/
structure HookArgs where
  productIdProp : Option String
  variantIdProp : Option String
  optionIdProp : Option String
  currentShopId : Option String
  deriving DecidableEq

/-- The resolved active selection. -/
structure ResolvedIds where
  productId : Option String
  variantId : Option String
  optionId : Option String
  shopId : Option String
  deriving DecidableEq

/-- Identifier Resolver, from useProduct and useVariantInventory:
`productId = routeParams.handle || productIdProp`,
`variantId = routeParams.variantId || variantIdProp`,
`optionId = routeParams.optionId || optionIdProp`,
`shopId = routeParams.shopId || currentShopId`. -/
def resolveIds (routeParams : RouteParams) (args : HookArgs) : ResolvedIds :=
  { productId := jsOrS routeParams.handle args.productIdProp
    variantId := jsOrS routeParams.variantId args.variantIdProp
    optionId := jsOrS routeParams.optionId args.optionIdProp
    shopId := jsOrS routeParams.shopId args.currentShopId }

/-- An option entity nested in a variant (only the id matters to the locator). -/
structure OptionEnt where
  idStr : String
  deriving DecidableEq

/-- A variant entity nested in a product. -/
structure VariantEnt where
  idStr : String
  options : List OptionEnt
  deriving DecidableEq

/-- The loaded product aggregate as seen by the Entity Locator. -/
structure ProductAgg where
  idStr : String
  variants : List VariantEnt
  deriving DecidableEq

/-- Entity Locator, from the identical code in useProduct and
useVariantInventory:

  let variant; let option;
  if (product and variantId) variant = product.variants.find(v => v id equals variantId);
  if (product and variantId and optionId) option = variant.options.find(o => o id equals optionId);

The second guard tests `variantId`, not `variant`: when the variant scan
found nothing, `variant` is `undefined` and reading `.options` from it
throws a TypeError, modelled as `Except.error`. -/
def locateEntities (product? : Option ProductAgg) (variantId? optionId? : Option String) :
    Except String (Option VariantEnt × Option OptionEnt) :=
  let variant? : Option VariantEnt :=
    match product?, variantId? with
    | some p, some vid =>
      if vid ≠ "" then p.variants.find? (fun v => v.idStr == vid) else none
    | _, _ => none
  if product?.isSome && jsTruthyS variantId? && jsTruthyS optionId? then
    match variant? with
    | none => Except.error "TypeError: cannot read property options of undefined"
    | some v =>
      match optionId? with
      | some oid => Except.ok (variant?, v.options.find? (fun o => o.idStr == oid))
      | none => Except.ok (variant?, none)
  else
    Except.ok (variant?, none)

/-- Outcome of an awaited asynchronous call: it either resolves with a value
or rejects with an error. -/
inductive CallResult (α : Type) where
  | ok (value : α)
  | err (message : String)
  deriving DecidableEq

/-- A toast notification: message key and severity. -/
structure Toast where
  messageKey : String
  severity : String
  deriving DecidableEq

/-- The variables object submitted by archiveProducts and cloneProducts:
input is built as shopId together with the opaque product ids. -/
structure ProductsMutationInput where
  shopId : Option String
  productIds : List String
  deriving DecidableEq

/-- Observable outcome of running one of the async mutation handlers:
which input (if any) was submitted to the remote API, the toasts emitted,
where the router navigated, and the error (if any) with which the async
handler itself rejected, escaping to the caller. -/
structure HandlerOutcome where
  submitted : Option ProductsMutationInput
  toasts : List Toast
  navigatedTo : Option String
  rejectedWith : Option String
  deriving DecidableEq

/-- onArchiveProduct from useProduct.  The `await getOpaqueIds(...)` happens
before the try block, so a rejection there rejects the whole handler with no
toast and no mutation attempt.  Inside the try: submit, success toast, then
`history.push(redirectUrl)`; the catch emits one error toast and does not
navigate. -/
def onArchiveProduct (shopId : Option String) (encode : CallResult (List String))
    (mutate : CallResult Unit) (redirectUrl : String) : HandlerOutcome :=
  match encode with
  | CallResult.err e =>
    { submitted := none, toasts := [], navigatedTo := none, rejectedWith := some e }
  | CallResult.ok opaqueProductIds =>
    match mutate with
    | CallResult.ok _ =>
      { submitted := some { shopId := shopId, productIds := opaqueProductIds }
        toasts := [⟨"productDetailEdit.archiveProductsSuccess", "success"⟩]
        navigatedTo := some redirectUrl
        rejectedWith := none }
    | CallResult.err _ =>
      { submitted := some { shopId := shopId, productIds := opaqueProductIds }
        toasts := [⟨"productDetailEdit.archiveProductsFail", "error"⟩]
        navigatedTo := none
        rejectedWith := none }

/-- onCloneProduct from useProduct: same shape as onArchiveProduct
(opaque-id encoding awaited before the try block) but with no navigation on
success. -/
def onCloneProduct (shopId : Option String) (encode : CallResult (List String))
    (mutate : CallResult Unit) : HandlerOutcome :=
  match encode with
  | CallResult.err e =>
    { submitted := none, toasts := [], navigatedTo := none, rejectedWith := some e }
  | CallResult.ok opaqueProductIds =>
    match mutate with
    | CallResult.ok _ =>
      { submitted := some { shopId := shopId, productIds := opaqueProductIds }
        toasts := [⟨"productDetailEdit.cloneProductSuccess", "success"⟩]
        navigatedTo := none
        rejectedWith := none }
    | CallResult.err _ =>
      { submitted := some { shopId := shopId, productIds := opaqueProductIds }
        toasts := [⟨"productDetailEdit.cloneProductFail", "error"⟩]
        navigatedTo := none
        rejectedWith := none }

/-- The product entity fields read by onToggleProductVisibility. -/
structure ProductEntity where
  idStr : String
  isVisible : Bool
  deriving DecidableEq

/-- The input object built by onToggleProductVisibility:
productId, shopId, and the product patch with the flipped flag. -/
structure UpdateProductVisibilityInput where
  productId : String
  shopId : Option String
  isVisible : Bool
  deriving DecidableEq

/-- onToggleProductVisibility from useProduct: submits
productId = product id, shopId from the closure, and
isVisible = the negation of the loaded value. -/
def onToggleProductVisibilityInput (product : ProductEntity) (shopId : Option String) :
    UpdateProductVisibilityInput :=
  { productId := product.idStr, shopId := shopId, isVisible := !product.isVisible }

/-- Reading a property from a JS value that is either a string or undefined:
a string has no such property, so the read yields undefined; reading from
undefined throws a TypeError. -/
def jsReadFieldOfString (v : Option String) : Except String (Option String) :=
  match v with
  | some _ => Except.ok none
  | none => Except.error "TypeError: cannot read property of undefined"

/-- The variant entity fields read by onToggleVariantVisibility. -/
structure VariantEntity where
  idStr : String
  isVisible : Bool
  deriving DecidableEq

/-- The input object built by onToggleVariantVisibility. -/
structure UpdateVariantVisibilityInput where
  variantId : String
  shopId : Option String
  isVisible : Bool
  deriving DecidableEq

/-- onToggleVariantVisibility from useProduct.  Its argument destructuring is
`shopId: shopIdLocal = shopId._id` — the default expression reads the field
`_id` of the closure shopId, which is a string (or undefined), so the
default evaluates to undefined (or throws).  The submitted isVisible is the
negation of the passed variant entity's flag. -/
def onToggleVariantVisibilityInput (closureShopId : Option String)
    (variantLocal : VariantEntity) (shopIdArg : Option String) :
    Except String UpdateVariantVisibilityInput :=
  match shopIdArg with
  | some s =>
    Except.ok { variantId := variantLocal.idStr, shopId := some s,
                isVisible := !variantLocal.isVisible }
  | none =>
    match jsReadFieldOfString closureShopId with
    | Except.error e => Except.error e
    | Except.ok dflt =>
      Except.ok { variantId := variantLocal.idStr, shopId := dflt,
                  isVisible := !variantLocal.isVisible }

/-- The closure values of useVariantInventory: the four resolved ids plus
`productVariantId = optionId || variantId`. -/
structure InvResolved where
  productId : Option String
  variantId : Option String
  optionId : Option String
  shopId : Option String
  productVariantId : Option String
  deriving DecidableEq

/-- useVariantInventory resolves ids with the same four lines as useProduct
and then computes `productVariantId = optionId || variantId`. -/
def resolveInventoryIds (routeParams : RouteParams) (args : HookArgs) : InvResolved :=
  let r := resolveIds routeParams args
  { productId := r.productId, variantId := r.variantId, optionId := r.optionId,
    shopId := r.shopId, productVariantId := jsOrS r.optionId r.variantId }

/-- The product configuration pair used by the inventory query and both
inventory mutations. -/
structure ProductConfiguration where
  productId : Option String
  productVariantId : Option String
  deriving DecidableEq

/-- The variables of the getInventoryInfo query in useVariantInventory. -/
structure InventoryQueryVariables where
  productConfiguration : ProductConfiguration
  shopId : Option String
  deriving DecidableEq

/-- useVariantInventory issues the inventory query with
productConfiguration built from the resolved productId and productVariantId
and the resolved shopId. -/
def inventoryQueryVariables (c : InvResolved) : InventoryQueryVariables :=
  { productConfiguration :=
      { productId := c.productId, productVariantId := c.productVariantId }
    shopId := c.shopId }

/-- JS destructuring default: the default expression is used exactly when
the read property is undefined. -/
def jsDefault (prop dflt : Option String) : Option String :=
  match prop with
  | some s => some s
  | none => dflt

/-- The caller-supplied argument object of the two inventory mutation
handlers, with its three id-valued properties. -/
structure InvMutationArgs where
  productId : Option String
  productVariantId : Option String
  shopId : Option String
  deriving DecidableEq

/-- The identifier part of the input submitted by updateSimpleInventory and
recalculateReservedSimpleInventory. -/
structure SimpleInventoryIdInput where
  productConfiguration : ProductConfiguration
  shopId : Option String
  deriving DecidableEq

/-- onUpdateVariantInventoryInfo from useVariantInventory.  Its destructuring
pattern names the property `productVariantId` twice:
`productVariantId: productVariantIdLocal = productVariantId` and then
`productVariantId: shopIdLocal = shopId` — so shopIdLocal is read from the
caller's productVariantId property (default: closure shopId), and the
caller's shopId property is never read. -/
def onUpdateVariantInventoryInfoInput (c : InvResolved) (args : InvMutationArgs) :
    SimpleInventoryIdInput :=
  let productIdLocal := jsDefault args.productId c.productId
  let productVariantIdLocal := jsDefault args.productVariantId c.productVariantId
  let shopIdLocal := jsDefault args.productVariantId c.shopId
  { productConfiguration :=
      { productId := productIdLocal, productVariantId := productVariantIdLocal }
    shopId := shopIdLocal }

/-- onRecalculateReservedSimpleInventory from useVariantInventory: identical
argument destructuring to onUpdateVariantInventoryInfo, including the
doubled `productVariantId` property pattern. -/
def onRecalculateReservedInput (c : InvResolved) (args : InvMutationArgs) :
    SimpleInventoryIdInput :=
  let productIdLocal := jsDefault args.productId c.productId
  let productVariantIdLocal := jsDefault args.productVariantId c.productVariantId
  let shopIdLocal := jsDefault args.productVariantId c.shopId
  { productConfiguration :=
      { productId := productIdLocal, productVariantId := productVariantIdLocal }
    shopId := shopIdLocal }

/-- One socialMetadata entry of the loaded product. -/
structure SocialMetadataEntry where
  service : String
  message : String
  deriving DecidableEq

/-- The locally cached product aggregate held by useProduct, including the
dynamic properties added by JS assignment (service+Msg fields). -/
structure LocalProduct where
  idStr : String
  isVisible : Bool
  variants : List VariantEnt
  socialMetadata : Option (List SocialMetadataEntry)
  dynamicFields : List (String × String)
  deriving DecidableEq

/-- JS object property assignment: overwrite in place when the key exists,
otherwise append. -/
def jsSetProp (fields : List (String × String)) (key val : String) :
    List (String × String) :=
  if fields.any (fun f => f.1 == key) then
    fields.map (fun f => if f.1 == key then (key, val) else f)
  else
    fields ++ [(key, val)]

/-- The in-place write performed by useProduct on the cached product:
for each socialMetadata entry, assign product[service + "Msg"] = message.
Runs only when product.socialMetadata is an array. -/
def applySocialMetadataWrite (product : LocalProduct) : LocalProduct :=
  match product.socialMetadata with
  | some entries =>
    { product with
      dynamicFields :=
        entries.foldl (fun acc e => jsSetProp acc (e.service ++ "Msg") e.message)
          product.dynamicFields }
  | none => product

/-- A promise handle, identified with the time at which it settles. -/
abbrev PromiseHandle := Nat

/-- The combined refetch returned by useVariantInventory:
an arrow function that calls refetchInventory() and refetchProduct(),
discards both returned promises, and returns undefined (`none`). -/
def refetchCombined (refetchInventory refetchProduct : Unit → PromiseHandle) :
    Option PromiseHandle :=
  let _p1 := refetchInventory ()
  let _p2 := refetchProduct ()
  none

/-- Awaiting the value returned by a call: undefined resolves immediately
(time 0); a promise resolves at its settle time. -/
def awaitResolveTime (v : Option PromiseHandle) : Nat :=
  match v with
  | none => 0
  | some t => t

/-- The loaded inventory record fields read by the VariantInventoryForm
initialization effect. -/
structure InventoryInfo where
  canBackorder : Option Bool
  isEnabled : Option Bool
  deriving DecidableEq

/-- The VariantInventoryForm effect
`if (inventoryInfo) setCanBackorder(inventoryInfo.canBackorder || true)`:
returns the new canBackorder form state, or the previous state when no
inventory record has loaded. -/
def initialCanBackorderState (inventoryInfo : Option InventoryInfo)
    (prev : Option Bool) : Option Bool :=
  match inventoryInfo with
  | some info => some (jsOrB info.canBackorder true)
  | none => prev

/-- The companion effect `setIsEnabled(inventoryInfo.isEnabled || false)`. -/
def initialIsEnabledState (inventoryInfo : Option InventoryInfo)
    (prev : Option Bool) : Option Bool :=
  match inventoryInfo with
  | some info => some (jsOrB info.isEnabled false)
  | none => prev

theorem jsOrS_of_truthy (a b : Option String) (h : jsTruthyS a = true) : jsOrS a b = a := by
  simp [jsOrS, h]

theorem jsOrS_of_falsy (a b : Option String) (h : jsTruthyS a = false) : jsOrS a b = b := by
  simp [jsOrS, h]

theorem jsOrB_true_right (a : Option Bool) : jsOrB a true = true := by
  cases a with
  | none => rfl
  | some b => cases b <;> rfl

/-- C1 (amended): a failure of the archiveProducts or cloneProducts mutation
is caught locally, emits exactly one error toast, halts the chain
(no navigation, no rejection), but a failure of the opaque-id encoding
pre-step happens before the try block: it emits no notification, submits no
mutation, and rejects the handler, propagating to the caller. -/
theorem archive_clone_failure_handling (shopId : Option String) (e : String)
    (mres : CallResult Unit) (ids : List String) (m : String) (redirectUrl : String) :
    onArchiveProduct shopId (CallResult.err e) mres redirectUrl =
      { submitted := none, toasts := [], navigatedTo := none, rejectedWith := some e } ∧
    onArchiveProduct shopId (CallResult.ok ids) (CallResult.err m) redirectUrl =
      { submitted := some { shopId := shopId, productIds := ids }
        toasts := [⟨"productDetailEdit.archiveProductsFail", "error"⟩]
        navigatedTo := none, rejectedWith := none } ∧
    onCloneProduct shopId (CallResult.err e) mres =
      { submitted := none, toasts := [], navigatedTo := none, rejectedWith := some e } ∧
    onCloneProduct shopId (CallResult.ok ids) (CallResult.err m) =
      { submitted := some { shopId := shopId, productIds := ids }
        toasts := [⟨"productDetailEdit.cloneProductFail", "error"⟩]
        navigatedTo := none, rejectedWith := none } :=
  ⟨rfl, rfl, rfl, rfl⟩

/-- C1 counterexample: when the opaque-id encoding pre-step of
onArchiveProduct or onCloneProduct rejects, the handler emits no error
notification at all and the error escapes the handler (rejectedWith is not
none), contrary to the claim that every failure in the chain is caught
locally and converted to exactly one error notification. -/
theorem archive_encoding_failure_escapes :
    (onArchiveProduct (some "shop1") (CallResult.err "encoding failed")
      (CallResult.ok ()) "/products").rejectedWith = some "encoding failed" ∧
    (onArchiveProduct (some "shop1") (CallResult.err "encoding failed")
      (CallResult.ok ()) "/products").toasts = [] ∧
    (onCloneProduct (some "shop1") (CallResult.err "encoding failed")
      (CallResult.ok ())).rejectedWith = some "encoding failed" ∧
    (onCloneProduct (some "shop1") (CallResult.err "encoding failed")
      (CallResult.ok ())).toasts = [] :=
  ⟨rfl, rfl, rfl, rfl⟩

/-- C2: for a product whose variants list contains only v1, locating
variantId v3 with optionId o1 present makes the entity locator attempt the
inner scan on the unresolved (undefined) variant and crash with a
TypeError, although the claim says the inner scan is never attempted when
the variant lookup yields no match. -/
theorem option_scan_attempted_without_variant :
    locateEntities (some ⟨"p1", [⟨"v1", [⟨"o1"⟩]⟩]⟩) (some "v3") (some "o1") =
      Except.error "TypeError: cannot read property options of undefined" := rfl

/-- C3: the shopId submitted by the inventory mutations ignores the
caller-supplied shopId override (shop2 is dropped, closure shop1 is sent,
because the destructuring reads the productVariantId property for the
shopId binding), a caller-supplied productVariantId leaks into the
submitted shopId, and toggle-variant-visibility without an override submits
shopId undefined (the field read of a string) instead of the resolved shop
id shop1. -/
theorem shopId_override_ignored :
    (onUpdateVariantInventoryInfoInput ⟨some "p1", some "v1", none, some "shop1", some "v1"⟩
      ⟨none, none, some "shop2"⟩).shopId = some "shop1" ∧
    (onRecalculateReservedInput ⟨some "p1", some "v1", none, some "shop1", some "v1"⟩
      ⟨none, none, some "shop2"⟩).shopId = some "shop1" ∧
    (onUpdateVariantInventoryInfoInput ⟨some "p1", some "v1", none, some "shop1", some "v1"⟩
      ⟨none, some "pv9", none⟩).shopId = some "pv9" ∧
    onToggleVariantVisibilityInput (some "shop1") ⟨"v1", true⟩ none =
      Except.ok ⟨"v1", none, false⟩ :=
  ⟨rfl, rfl, rfl, rfl⟩

/-- C4 (amended): the in-place socialMetadata write of useProduct is the
only local mutation of the cached product: it leaves the id, visibility,
variants, and socialMetadata fields unchanged, changes only the dynamic
service-Msg fields, and is the identity when socialMetadata is absent. -/
theorem social_metadata_write_touches_only_dynamic_fields (p : LocalProduct) :
    (applySocialMetadataWrite p).idStr = p.idStr ∧
    (applySocialMetadataWrite p).isVisible = p.isVisible ∧
    (applySocialMetadataWrite p).variants = p.variants ∧
    (applySocialMetadataWrite p).socialMetadata = p.socialMetadata ∧
    (p.socialMetadata = none → applySocialMetadataWrite p = p) := by
  cases p with
  | mk idStr isVisible variants socialMetadata dynamicFields =>
    cases socialMetadata <;> simp [applySocialMetadataWrite]

theorem social_metadata_write_touches_only_dynamic_fields_witness :
    applySocialMetadataWrite ⟨"p1", true, [], none, []⟩ = ⟨"p1", true, [], none, []⟩ :=
  (social_metadata_write_touches_only_dynamic_fields ⟨"p1", true, [], none, []⟩).2.2.2.2 rfl

/-- C4 counterexample: useProduct mutates the locally cached product in
place: for a loaded product with one socialMetadata entry, the cached copy
after the write differs from the fetched copy (a facebookMsg field has been
added locally, with no remote round trip and no refetch). -/
theorem local_product_mutated_by_social_metadata :
    applySocialMetadataWrite ⟨"p1", true, [], some [⟨"facebook", "hello"⟩], []⟩ ≠
      ⟨"p1", true, [], some [⟨"facebook", "hello"⟩], []⟩ ∧
    (applySocialMetadataWrite ⟨"p1", true, [], some [⟨"facebook", "hello"⟩], []⟩).dynamicFields =
      [("facebookMsg", "hello")] := by
  exact ⟨by decide, rfl⟩

/-- C5: when the archive or clone mutation call succeeds the handler emits
exactly one success toast and no error toast (and archive navigates to the
redirect target); when the mutation call fails the handler emits exactly
one error toast and the navigation side effect does not occur. -/
theorem archive_notification_discipline (shopId : Option String) (ids : List String)
    (m : String) (redirectUrl : String) :
    onArchiveProduct shopId (CallResult.ok ids) (CallResult.ok ()) redirectUrl =
      { submitted := some { shopId := shopId, productIds := ids }
        toasts := [⟨"productDetailEdit.archiveProductsSuccess", "success"⟩]
        navigatedTo := some redirectUrl, rejectedWith := none } ∧
    onArchiveProduct shopId (CallResult.ok ids) (CallResult.err m) redirectUrl =
      { submitted := some { shopId := shopId, productIds := ids }
        toasts := [⟨"productDetailEdit.archiveProductsFail", "error"⟩]
        navigatedTo := none, rejectedWith := none } ∧
    onCloneProduct shopId (CallResult.ok ids) (CallResult.ok ()) =
      { submitted := some { shopId := shopId, productIds := ids }
        toasts := [⟨"productDetailEdit.cloneProductSuccess", "success"⟩]
        navigatedTo := none, rejectedWith := none } ∧
    onCloneProduct shopId (CallResult.ok ids) (CallResult.err m) =
      { submitted := some { shopId := shopId, productIds := ids }
        toasts := [⟨"productDetailEdit.cloneProductFail", "error"⟩]
        navigatedTo := none, rejectedWith := none } :=
  ⟨rfl, rfl, rfl, rfl⟩

/-- C6 (amended): the combined refetch of useVariantInventory fires both
underlying refetches but returns undefined immediately, so a caller
awaiting it resumes at time 0, independent of when the inventory and
product refetches actually complete. -/
theorem combined_refetch_returns_immediately (f g : Unit → PromiseHandle) :
    refetchCombined f g = none ∧ awaitResolveTime (refetchCombined f g) = 0 :=
  ⟨rfl, rfl⟩

/-- C6 counterexample: with an inventory refetch completing at time 5 and a
product refetch completing at time 7, awaiting the combined refetch
resolves at time 0, strictly before either underlying refetch has
completed, contrary to the claim that it does not resolve before both have
completed. -/
theorem combined_refetch_resolves_before_completion :
    awaitResolveTime (refetchCombined (fun _ => 5) (fun _ => 7)) < 5 ∧
    awaitResolveTime (refetchCombined (fun _ => 5) (fun _ => 7)) < 7 := by
  exact ⟨by decide, by decide⟩

/-- C7: for each of the four id pairs, the resolver returns the route
parameter when it is present (truthy), and falls back to the explicit
argument (or the current shop id) exactly when the route parameter is
absent. -/
theorem route_param_precedence (rp : RouteParams) (args : HookArgs) :
    (jsTruthyS rp.handle = true → (resolveIds rp args).productId = rp.handle) ∧
    (jsTruthyS rp.handle = false → (resolveIds rp args).productId = args.productIdProp) ∧
    (jsTruthyS rp.variantId = true → (resolveIds rp args).variantId = rp.variantId) ∧
    (jsTruthyS rp.variantId = false → (resolveIds rp args).variantId = args.variantIdProp) ∧
    (jsTruthyS rp.optionId = true → (resolveIds rp args).optionId = rp.optionId) ∧
    (jsTruthyS rp.optionId = false → (resolveIds rp args).optionId = args.optionIdProp) ∧
    (jsTruthyS rp.shopId = true → (resolveIds rp args).shopId = rp.shopId) ∧
    (jsTruthyS rp.shopId = false → (resolveIds rp args).shopId = args.currentShopId) :=
  ⟨fun h => jsOrS_of_truthy _ _ h, fun h => jsOrS_of_falsy _ _ h,
   fun h => jsOrS_of_truthy _ _ h, fun h => jsOrS_of_falsy _ _ h,
   fun h => jsOrS_of_truthy _ _ h, fun h => jsOrS_of_falsy _ _ h,
   fun h => jsOrS_of_truthy _ _ h, fun h => jsOrS_of_falsy _ _ h⟩

theorem route_param_precedence_witness :
    (resolveIds ⟨some "p", none, some "o", some "s"⟩
      ⟨some "P", some "V", some "O", some "S"⟩).productId = some "p" ∧
    (resolveIds ⟨some "p", none, some "o", some "s"⟩
      ⟨some "P", some "V", some "O", some "S"⟩).variantId = some "V" := by
  have h := route_param_precedence ⟨some "p", none, some "o", some "s"⟩
    ⟨some "P", some "V", some "O", some "S"⟩
  exact ⟨h.1 (by decide), h.2.2.2.1 (by decide)⟩

/-- C8: toggle-product-visibility submits the negation of the loaded
product isVisible flag, and every payload that toggle-variant-visibility
successfully submits carries the negation of the passed variant entity's
isVisible flag. -/
theorem toggle_visibility_negates :
    (∀ (product : ProductEntity) (shopId : Option String),
      (onToggleProductVisibilityInput product shopId).isVisible = !product.isVisible) ∧
    (∀ (closureShopId : Option String) (variantLocal : VariantEntity)
        (shopIdArg : Option String) (payload : UpdateVariantVisibilityInput),
      onToggleVariantVisibilityInput closureShopId variantLocal shopIdArg = Except.ok payload →
      payload.isVisible = !variantLocal.isVisible) := by
  constructor
  · intro product shopId
    rfl
  · intro closureShopId variantLocal shopIdArg payload h
    cases shopIdArg with
    | some s =>
      injection h with h2
      subst h2
      rfl
    | none =>
      cases closureShopId with
      | none => simp [onToggleVariantVisibilityInput, jsReadFieldOfString] at h
      | some s2 =>
        injection h with h2
        subst h2
        rfl

theorem toggle_visibility_negates_witness :
    (onToggleProductVisibilityInput ⟨"p1", true⟩ (some "shop1")).isVisible = !true ∧
    (⟨"v1", some "shop2", false⟩ : UpdateVariantVisibilityInput).isVisible = !true := by
  exact ⟨toggle_visibility_negates.1 ⟨"p1", true⟩ (some "shop1"),
    toggle_visibility_negates.2 (some "shop1") ⟨"v1", true⟩ (some "shop2")
      ⟨"v1", some "shop2", false⟩ rfl⟩

/-- C9: the resolved productVariantId of useVariantInventory is the
resolved option id whenever one is present and the resolved variant id
otherwise, and it is the value placed into the productConfiguration of the
inventory query and of both inventory mutations when no override is
given. -/
theorem inventory_target_prefers_option (rp : RouteParams) (args : HookArgs) :
    (jsTruthyS (resolveInventoryIds rp args).optionId = true →
      (resolveInventoryIds rp args).productVariantId = (resolveInventoryIds rp args).optionId) ∧
    (jsTruthyS (resolveInventoryIds rp args).optionId = false →
      (resolveInventoryIds rp args).productVariantId = (resolveInventoryIds rp args).variantId) ∧
    (inventoryQueryVariables (resolveInventoryIds rp args)).productConfiguration.productVariantId =
      (resolveInventoryIds rp args).productVariantId ∧
    (onUpdateVariantInventoryInfoInput (resolveInventoryIds rp args)
      ⟨none, none, none⟩).productConfiguration.productVariantId =
      (resolveInventoryIds rp args).productVariantId ∧
    (onRecalculateReservedInput (resolveInventoryIds rp args)
      ⟨none, none, none⟩).productConfiguration.productVariantId =
      (resolveInventoryIds rp args).productVariantId :=
  ⟨fun h => jsOrS_of_truthy _ _ h, fun h => jsOrS_of_falsy _ _ h, rfl, rfl, rfl⟩

theorem inventory_target_prefers_option_witness :
    (resolveInventoryIds ⟨some "p", some "v", some "o", some "s"⟩
      ⟨none, none, none, none⟩).productVariantId = some "o" := by
  have h := inventory_target_prefers_option ⟨some "p", some "v", some "o", some "s"⟩
    ⟨none, none, none, none⟩
  have h1 := h.1 (by decide)
  rw [h1]
  decide

/-- C10: whenever a loaded inventory record arrives, the
VariantInventoryForm effect initializes the backorder-allowed state to
true for every loaded value, because it computes canBackorder or-else true;
a loaded false is never reflected. -/
theorem canBackorder_initialized_true (info : InventoryInfo) (prev : Option Bool) :
    initialCanBackorderState (some info) prev = some true :=
  congrArg some (jsOrB_true_right info.canBackorder)
